import Mathlib

/-!
Verification of the tmdu-traffic pipeline core: shallow embedding of
`spatial_processor.py`, `congestion_analyzer.py` and `traffic_data.py`
(the spatial match, per-road aggregation, congestion classification,
statistics summary and synthetic-data fallback), together with theorems
settling the specification's claims about them.

Modelling conventions:
* pandas/numpy float columns become `Option ℚ` (`none` = NaN / null /
  non-numeric after `to_numeric(errors = coerce)`); numpy comparisons
  against NaN are `false`, which the embeddings make explicit.
* `numpy.round(x, 1)` is round-half-to-even at one decimal, embedded
  exactly on ℚ.
* the planar (EPSG:3857) point-to-geometry distance computed by the
  geometry library is an abstract parameter `dist` of the spatial join:
  every theorem about the join holds for an arbitrary distance function.
* `numpy.random` draws are modelled by an explicit deterministic LCG
  stream keyed by the seed, and `np.sqrt` by `ratSqrt` (exact at 0, a
  Heron rational approximation on positive arguments); the NaN that
  `distances / distances.max()` produces when every sampled point sits
  exactly at the bbox center is modelled by `Option` (`none`) and
  propagates through the speed and travel-time columns, as NaN does
  through `*`, `+` and `np.clip` in the source.
-/

/-! ### Congestion levels (`congestion_analyzer.py`)  -/

/-- The four congestion tiers produced by `calculate_congestion_level`. -/
inductive CongestionLevel where
  | low
  | medium
  | high
  | unknown
  deriving DecidableEq, Repr, Fintype, Inhabited

/-- Default thresholds from `config.CONGESTION_THRESHOLDS`:
`high_speed = 30`, `medium_speed = 20` (km/h). -/
structure Thresholds where
  high_speed : ℚ
  medium_speed : ℚ
  deriving DecidableEq, Repr

/-- `config.CONGESTION_THRESHOLDS` -/
def defaultThresholds : Thresholds := ⟨30, 20⟩

/-- A numpy elementwise `>=` on a float column: NaN (`none`) compares
`false`. -/
def optGe (s : Option ℚ) (t : ℚ) : Bool :=
  match s with
  | none => false
  | some v => decide (t ≤ v)

/-- A numpy elementwise `<` on a float column: NaN (`none`) compares
`false`. -/
def optLt (s : Option ℚ) (t : ℚ) : Bool :=
  match s with
  | none => false
  | some v => decide (v < t)

/-- Embedding of the `np.select` call in
`CongestionAnalyzer.calculate_congestion_level` (congestion_analyzer.py,
lines 47-59): conditions `[speed >= high_speed, speed >= medium_speed,
speed < medium_speed]`, choices `[low, medium, high]`, default
`unknown`; the speed column has already been through
`pd.to_numeric(errors = coerce)`, so a null or non-numeric entry is
`none`. -/
def calculateCongestionLevel (th : Thresholds) (speed : Option ℚ) :
    CongestionLevel :=
  if optGe speed th.high_speed then .low
  else if optGe speed th.medium_speed then .medium
  else if optLt speed th.medium_speed then .high
  else .unknown

/-- The decision rule as the specification words it: null → unknown,
then ordered threshold comparison, first match wins. Used only to be
compared against `calculateCongestionLevel`. -/
def specCongestionRule (th : Thresholds) (speed : Option ℚ) :
    CongestionLevel :=
  match speed with
  | none => .unknown
  | some v =>
    if th.high_speed ≤ v then .low
    else if th.medium_speed ≤ v then .medium
    else .high

/-! ### Statistics (`congestion_analyzer.py`, `generate_statistics`) -/

/-- Round a rational to the nearest integer, ties to even — the
rounding numpy applies inside `np.round`. -/
def roundHalfEven (x : ℚ) : ℤ :=
  let n := ⌊x⌋
  let f := x - n
  if f < 1/2 then n
  else if 1/2 < f then n + 1
  else if Even n then n else n + 1

/-- `np.round(x, 1)`: round to one decimal, ties to even. -/
def npRound1 (x : ℚ) : ℚ := (roundHalfEven (10 * x) : ℚ) / 10

/-- Embedding of the congestion-percentage computation in
`CongestionAnalyzer.generate_statistics` (congestion_analyzer.py, lines
89-113): on an empty frame the returned `congestion_percentage` dict is
empty; otherwise `value_counts` tallies each level present and the
percentage is `count / total * 100` rounded to one decimal.
(`value_counts` orders entries by count; the ordering of the returned
association list is irrelevant to every property proved here.) -/
def congestionPercentages (levels : List CongestionLevel) :
    List (CongestionLevel × ℚ) :=
  if levels.isEmpty then []
  else levels.dedup.map fun l =>
    (l, npRound1 ((levels.count l : ℚ) / (levels.length : ℚ) * 100))

/-- Sum of the percentage values in the statistics snapshot. -/
def percentageSum (levels : List CongestionLevel) : ℚ :=
  ((congestionPercentages levels).map Prod.snd).sum

/-- The concrete classified-segment multiset on which the original ±0.1
claim fails: 16 segments, one `low`, one `medium`, one `high`, thirteen
`unknown`. -/
def sixteenLevels : List CongestionLevel :=
  [.low, .medium, .high] ++ List.replicate 13 .unknown

/-! ### Per-road aggregation (`spatial_processor.py`,
`aggregate_by_road`) -/

/-- One row of the spatially joined frame consumed by
`aggregate_by_road`: the left join leaves `road_id` (and the carried
road attributes) null on unmatched observations, and any numeric cell
may be NaN. -/
structure JoinedRow where
  roadId : Option String
  speed : Option ℚ
  travelTime : Option ℚ
  linkLength : Option ℚ
  distToRoad : Option ℚ
  roadName : Option String
  roadClass : Option String
  deriving DecidableEq, Repr

/-- Which optional columns the joined frame carries:
`aggregate_by_road` probes `'平均速度'`, `'旅行時間'`, `'リンク長'` and
`'distance_to_road'` with `in valid_data.columns` before aggregating.
(The string columns `road_name`/`road_class` are modelled as
always-present nullable columns.) -/
structure JoinedCols where
  hasSpeed : Bool
  hasTravelTime : Bool
  hasLinkLength : Bool
  hasDist : Bool
  deriving DecidableEq, Repr

/-- One output row of `aggregate_by_road` (geometry, which is copied
from the cached road frame and never recomputed, is outside the claims
and omitted). -/
structure AggRow where
  roadId : String
  meanSpeed : Option ℚ
  meanTravelTime : Option ℚ
  meanLinkLength : Option ℚ
  meanDist : Option ℚ
  roadName : Option String
  roadClass : Option String
  observationCount : ℕ
  deriving DecidableEq, Repr

/-- pandas `'mean'` reduction of a groupby column: the NaN entries are
skipped, and a group whose entries are all NaN yields NaN (`none`),
never zero. The argument is the list of non-null values of the group. -/
def meanOpt (vals : List ℚ) : Option ℚ :=
  if vals.isEmpty then none else some (vals.sum / (vals.length : ℚ))

/-- The rows that survive the `road_id.notna()` filter (the
`valid_data` frame of `aggregate_by_road`). -/
def validRows (rows : List JoinedRow) : List JoinedRow :=
  rows.filter fun r => r.roadId.isSome

/-- Embedding of `SpatialProcessor.aggregate_by_road`
(spatial_processor.py, lines 95-181): keep rows with non-null
`road_id`; return an empty frame when none remain or when none of the
three numeric columns `平均速度`/`旅行時間`/`リンク長` is present; else
group by `road_id` (pandas sorts group keys, modelled here in
first-occurrence order, which no claim distinguishes) and reduce each
numeric column by the NaN-skipping mean, the string columns by the
first non-null value, and record the group size as
`observation_count`. The subsequent geometry lookup adds a column but
drops no row. -/
def aggregateByRoad (rows : List JoinedRow) (cols : JoinedCols) :
    List AggRow :=
  let valid := validRows rows
  if valid.isEmpty then []
  else if !(cols.hasSpeed || cols.hasTravelTime || cols.hasLinkLength) then []
  else
    ((valid.filterMap fun r => r.roadId).dedup).map fun k =>
      let g := valid.filter fun r => r.roadId = some k
      { roadId := k
        meanSpeed :=
          if cols.hasSpeed then meanOpt (g.filterMap fun r => r.speed)
          else none
        meanTravelTime :=
          if cols.hasTravelTime then
            meanOpt (g.filterMap fun r => r.travelTime)
          else none
        meanLinkLength :=
          if cols.hasLinkLength then
            meanOpt (g.filterMap fun r => r.linkLength)
          else none
        meanDist :=
          if cols.hasDist then meanOpt (g.filterMap fun r => r.distToRoad)
          else none
        roadName := (g.filterMap fun r => r.roadName).head?
        roadClass := (g.filterMap fun r => r.roadClass).head?
        observationCount := g.length }

/-- The mean-reduction contract as the specification words it: a field
that is entirely null within its group is reported as null, otherwise
it carries the arithmetic mean of the non-null values. Used only to be
compared with the rows `aggregateByRoad` produces. -/
def meanSpec (vals : List ℚ) (res : Option ℚ) : Prop :=
  (vals = [] → res = none) ∧
  (vals ≠ [] → res = some (vals.sum / (vals.length : ℚ)))

/-- A concrete joined frame for exercising the aggregation: two matched
rows on road "a" with every numeric cell null, one unmatched row. -/
def wRows : List JoinedRow :=
  [⟨some "a", none, none, none, none, none, none⟩,
   ⟨some "a", none, none, none, none, none, none⟩,
   ⟨none, none, none, none, none, none, none⟩]

/-- All four optional columns present. -/
def wCols : JoinedCols := ⟨true, true, true, true⟩

/-- The single aggregated row `aggregate_by_road` produces on `wRows`. -/
def wAgg : AggRow := ⟨"a", none, none, none, none, none, none, 2⟩

/-! ### Spatial join (`spatial_processor.py`, `join_traffic_roads`) -/

/-- Minimum of a list of rationals (`0` on the empty list, which the
join never queries). -/
def minQList : List ℚ → ℚ
  | [] => 0
  | [x] => x
  | x :: y :: rest => min x (minQList (y :: rest))

/-- One output row of the nearest join: the observation, the matched
road id (null when nothing lies within the cutoff) and the distance to
it (null exactly when unmatched, as `sjoin_nearest(how = left)`
produces). -/
structure MatchedRecord (O : Type) where
  obs : O
  roadId : Option String
  distToRoad : Option ℚ
  deriving DecidableEq, Repr

/-- Embedding of `SpatialProcessor.join_traffic_roads`
(spatial_processor.py, lines 17-93): empty input on either side yields
an empty frame; otherwise `gpd.sjoin_nearest(how = left,
max_distance, distance_col)` emits, per observation, the nearest road
rows (every tie at the minimum distance, as the library does) when the
minimum distance is within the cutoff, and a single null-matched row
otherwise. The planar EPSG:3857 point-to-line distance computed by the
library is the abstract parameter `dist`, so every theorem below holds
for the library's actual metric. -/
def joinTrafficRoads {O S : Type} (segId : S → String)
    (dist : O → S → ℚ) (maxDistance : ℚ) (traffic : List O)
    (roads : List S) : List (MatchedRecord O) :=
  if traffic.isEmpty || roads.isEmpty then []
  else
    traffic.flatMap fun o =>
      let m := minQList (roads.map (dist o))
      if m ≤ maxDistance then
        (roads.filter fun s => dist o s = m).map
          fun s => ⟨o, some (segId s), some m⟩
      else [⟨o, none, none⟩]

/-! ### Synthetic data and fetch fallback (`traffic_data.py`) -/

/-- Bounding box `(minLon, minLat, maxLon, maxLat)`, unpacked in the
source as `minx, miny, maxx, maxy = bbox`. -/
structure BBox where
  minLon : ℚ
  minLat : ℚ
  maxLon : ℚ
  maxLat : ℚ
  deriving DecidableEq, Repr

/-- `config.BBOX_5KM`. -/
def BBOX_5KM : BBox := ⟨139.7194, 35.6606, 139.8094, 35.7506⟩

/-- One synthetic observation row: columns 道路種別, 時間コード,
平均速度, 旅行時間, リンク長, longitude, latitude. The speed and
travel-time cells are nullable: when every sampled point coincides
with the bbox center (a degenerate bounding box), the source's
`distances / distances.max()` is `0/0` = NaN and propagates into both
columns; every other cell is non-null by construction. -/
structure TrafficPoint where
  roadType : ℕ
  timeCode : ℕ
  speed : Option ℚ
  travelTime : Option ℚ
  linkLength : ℚ
  lon : ℚ
  lat : ℚ
  deriving DecidableEq, Repr, Inhabited

/-- Deterministic model of the numpy PRNG that `np.random.seed` pins
down: a linear congruential step on 2³². The exact distribution of the
draws is irrelevant to every claim proved about the generator; what
matters is that the whole stream is a function of the seed alone. -/
def lcgNext (s : ℕ) : ℕ := (1664525 * s + 1013904223) % 4294967296

/-- The PRNG state after `k` steps from `seed`. -/
def lcgState (seed : ℕ) : ℕ → ℕ
  | 0 => seed % 4294967296
  | k + 1 => lcgNext (lcgState seed k)

/-- The `k`-th uniform draw in `[0, 1)` of the seeded stream. The
source consumes the stream in call order: `n` longitude draws, then
`n` latitude draws, then `n` noise draws, then `n` link-length
draws. -/
def unitDraw (seed k : ℕ) : ℚ := (lcgState seed (k + 1) : ℚ) / 4294967296

/-- One Heron step toward the square root of `q`. -/
def heronStep (q x : ℚ) : ℚ := (x + q / x) / 2

/-- Rational stand-in for `np.sqrt`: exactly 0 at 0, as `np.sqrt(0)`
is (so a zero distance maximum — the `0/0` NaN path — is reachable
exactly when it is in the source), and four Heron iterations from
`(q+1)/2` on other arguments, which keeps positive arguments positive;
the claims proved about the generator do not depend on the accuracy on
positive arguments. -/
def ratSqrt (q : ℚ) : ℚ :=
  if q = 0 then 0
  else heronStep q (heronStep q (heronStep q (heronStep q ((q + 1) / 2))))

/-- The time-of-day factor of `_generate_mock_data` (traffic_data.py,
lines 91-97): 0.6 during the 7–9 and 17–19 rush hours, 1.3 late night
(hour ≥ 22 or ≤ 5), 1.0 otherwise. -/
def speedFactor (hour : ℕ) : ℚ :=
  if (7 ≤ hour ∧ hour ≤ 9) ∨ (17 ≤ hour ∧ hour ≤ 19) then 3/5
  else if 22 ≤ hour ∨ hour ≤ 5 then 13/10
  else 1

/-- `lons = np.random.uniform(minx, maxx, n)`, point `i`. -/
def mockLon (seed n : ℕ) (b : BBox) (i : ℕ) : ℚ :=
  b.minLon + unitDraw seed i * (b.maxLon - b.minLon)

/-- `lats = np.random.uniform(miny, maxy, n)`, point `i` (drawn after
the `n` longitude draws). -/
def mockLat (seed n : ℕ) (b : BBox) (i : ℕ) : ℚ :=
  b.minLat + unitDraw seed (n + i) * (b.maxLat - b.minLat)

/-- `center_lon = (minx + maxx) / 2`. -/
def centerLon (b : BBox) : ℚ := (b.minLon + b.maxLon) / 2

/-- `center_lat = (miny + maxy) / 2`. -/
def centerLat (b : BBox) : ℚ := (b.minLat + b.maxLat) / 2

/-- `distances = np.sqrt((lons - center_lon)**2 + (lats -
center_lat)**2)`, point `i`. -/
def mockDist (seed n : ℕ) (b : BBox) (i : ℕ) : ℚ :=
  ratSqrt ((mockLon seed n b i - centerLon b) ^ 2 +
    (mockLat seed n b i - centerLat b) ^ 2)

/-- `distances.max()`; the distances are all nonnegative, so seeding
the fold with 0 is harmless. -/
def mockDistMax (seed n : ℕ) (b : BBox) : ℚ :=
  ((List.range n).map (mockDist seed n b)).foldl max 0

/-- `base_speeds = 50 - (distances / distances.max()) * 30`. When the
distance maximum is 0 every distance is 0 (distances are nonnegative),
numpy's `0/0` is NaN, and NaN propagates through the subtraction:
modelled as `none`. -/
def mockBaseSpeed (seed n : ℕ) (b : BBox) (i : ℕ) : Option ℚ :=
  if mockDistMax seed n b = 0 then none
  else some (50 - mockDist seed n b i / mockDistMax seed n b * 30)

/-- Surrogate for the `np.random.normal(0, 5, n)` noise draw of point
`i`: a deterministic mean-0 scale-5 value in `[-5, 5)` taken from the
seeded stream (drawn after the `2n` coordinate draws); only its
determinism matters to the claims. -/
def gaussDraw (seed n i : ℕ) : ℚ := 5 * (2 * unitDraw seed (2 * n + i) - 1)

/-- `speeds = np.clip(base_speeds * speed_factor + noise, 5, 80)`,
point `i` — `np.clip(x, lo, hi)` is `min(max(x, lo), hi)` on a number
and NaN on NaN, which the scaling and the added noise also
propagate. -/
def mockSpeed (seed n : ℕ) (b : BBox) (hour i : ℕ) : Option ℚ :=
  match mockBaseSpeed seed n b i with
  | none => none
  | some x =>
    some (min (max (x * speedFactor hour + gaussDraw seed n i) 5) 80)

/-- `link_lengths = np.random.uniform(50, 200, n)`, point `i` (drawn
after the coordinate and noise draws). -/
def mockLinkLength (seed n i : ℕ) : ℚ := 50 + unitDraw seed (3 * n + i) * 150

/-- `travel_times = (link_lengths / 1000) / (speeds / 3600)` — seconds,
derived from the assigned link length and the generated speed; a NaN
speed makes the travel time NaN too. -/
def mockTravelTime (seed n : ℕ) (b : BBox) (hour i : ℕ) : Option ℚ :=
  match mockSpeed seed n b hour i with
  | none => none
  | some v => some (mockLinkLength seed n i / 1000 / (v / 3600))

/-- Embedding of `TrafficDataFetcher._generate_mock_data`
(traffic_data.py, lines 70-131), with the seed and the point count as
explicit parameters (the source pins them to 42 and 200, see
`generateMockDataCode`) and the wall-clock inputs split into the hour
bucket (which drives `speed_factor`) and the stamped minute-resolution
time code. `ROAD_TYPE = 3` from config.py. -/
def generateMockData (seed n : ℕ) (b : BBox) (hour timeCode : ℕ) :
    List TrafficPoint :=
  (List.range n).map fun i =>
    { roadType := 3
      timeCode := timeCode
      speed := mockSpeed seed n b hour i
      travelTime := mockTravelTime seed n b hour i
      linkLength := mockLinkLength seed n i
      lon := mockLon seed n b i
      lat := mockLat seed n b i }

/-- `_generate_mock_data` exactly as shipped: `np.random.seed(42)` and
`n_points = 200` are fixed inside the function. -/
def generateMockDataCode (b : BBox) (hour timeCode : ℕ) :
    List TrafficPoint :=
  generateMockData 42 200 b hour timeCode

/-- The sampling box used by the generator witnesses. -/
def mockSampleBox : BBox := ⟨0, 0, 1, 1⟩

/-- The single point generated at seed 0, one point, `mockSampleBox`,
hour 12. -/
def mockSample : TrafficPoint :=
  (generateMockData 0 1 mockSampleBox 12 0).headI

/-- One live-feed record after GeoJSON parsing and
`pd.to_numeric(errors = coerce)`: null marks NaN / non-numeric cells
and a missing geometry. -/
structure RawObs where
  speed : Option ℚ
  travelTime : Option ℚ
  linkLength : Option ℚ
  geom : Option (ℚ × ℚ)
  deriving DecidableEq, Repr

/-- Embedding of `TrafficDataFetcher.validate_traffic_data`
(traffic_data.py, lines 174-209): keep rows whose speed lies in
[0, 150] (a pandas NaN comparison is `False`, so null-speed rows are
dropped too), then rows with nonnegative travel time (likewise), then
rows with a geometry. The `to_numeric` coercion is the identity here
because cells are already `Option ℚ`. -/
def validateTrafficData (rows : List RawObs) : List RawObs :=
  ((rows.filter fun r =>
      match r.speed with
      | none => false
      | some v => decide (0 ≤ v ∧ v ≤ 150)).filter fun r =>
        match r.travelTime with
        | none => false
        | some v => decide (0 ≤ v)).filter fun r => r.geom.isSome

/-- Outcome of the live JARTIC request: a transport or parse failure
(every exception path of `fetch_traffic_data`), or a parsed feature
list, possibly empty. -/
inductive LiveFeed where
  | unreachable
  | success (rows : List RawObs)
  deriving DecidableEq, Repr

/-- A synthetic point injected into the common row schema. -/
def TrafficPoint.toRawObs (p : TrafficPoint) : RawObs :=
  ⟨p.speed, p.travelTime, some p.linkLength, some (p.lon, p.lat)⟩

/-- `USE_MOCK_DATA` (traffic_data.py, line 13) — the shipped default
for the fetcher's `use_mock` flag. -/
def USE_MOCK_DATA : Bool := true

/-- Embedding of `TrafficDataFetcher.fetch_traffic_data`
(traffic_data.py, lines 24-68): with `use_mock` set the mock frame is
returned outright; otherwise a request failure, a processing failure
or an empty parse each fall back to the mock frame, and a nonempty
parse is cleaned by `validate_traffic_data` and returned. The return
value is the bare row list — the function exposes no indicator of
which source produced it. -/
def fetchTrafficData (useMock : Bool) (b : BBox) (hour timeCode : ℕ)
    (live : LiveFeed) : List RawObs :=
  if useMock then (generateMockDataCode b hour timeCode).map (·.toRawObs)
  else
    match live with
    | .unreachable => (generateMockDataCode b hour timeCode).map (·.toRawObs)
    | .success rows =>
      if rows.isEmpty then
        (generateMockDataCode b hour timeCode).map (·.toRawObs)
      else validateTrafficData rows

/-- A valid, nonempty live observation used by the fetch
counterexample. -/
def liveObs : RawObs := ⟨some 40, some 10, some 100, some (139.75, 35.7)⟩

/-- The degenerate bounding box whose four corners coincide: every
sampled point lands exactly on the center, so the source's
`base_speeds` computation divides 0 by 0. -/
def degBox : BBox := ⟨0, 0, 0, 0⟩

/-- The single point generated at seed 0, one point, `degBox`,
hour 12. -/
def mockDegSample : TrafficPoint :=
  (generateMockData 0 1 degBox 12 0).headI

theorem roundHalfEven_abs_le (x : ℚ) :
    |(roundHalfEven x : ℚ) - x| ≤ 1/2 := by
  unfold roundHalfEven
  have hfl : (⌊x⌋ : ℚ) ≤ x := Int.floor_le x
  have hfu : x < (⌊x⌋ : ℚ) + 1 := Int.lt_floor_add_one x
  by_cases h1 : x - (⌊x⌋ : ℚ) < 1/2
  · simp only [h1, if_true]
    rw [abs_sub_comm, abs_of_nonneg (by linarith)]
    linarith
  · by_cases h2 : (1:ℚ)/2 < x - (⌊x⌋ : ℚ)
    · simp only [h1, if_false, h2, if_true]
      push_cast
      rw [abs_of_nonneg (by linarith)]
      linarith
    · have heq : x - (⌊x⌋ : ℚ) = 1/2 := le_antisymm (not_lt.1 h2) (not_lt.1 h1)
      by_cases h3 : Even ⌊x⌋
      · simp only [h1, if_false, h2, if_false, h3, if_true]
        rw [abs_sub_comm, abs_of_nonneg (by linarith)]
        linarith
      · simp only [h1, if_false, h2, if_false, h3, if_false]
        push_cast
        rw [abs_of_nonneg (by linarith)]
        linarith

theorem npRound1_abs_le (x : ℚ) : |npRound1 x - x| ≤ 1/20 := by
  have h := roundHalfEven_abs_le (10 * x)
  unfold npRound1
  have h10 : |((roundHalfEven (10 * x) : ℚ) - 10 * x) / 10| ≤ (1/2) / 10 := by
    rw [abs_div]
    have : |(10:ℚ)| = 10 := by norm_num
    rw [this]
    linarith
  calc |(roundHalfEven (10 * x) : ℚ) / 10 - x|
      = |((roundHalfEven (10 * x) : ℚ) - 10 * x) / 10| := by ring_nf
    _ ≤ (1/2) / 10 := h10
    _ = 1/20 := by norm_num

/-- The rounded per-level percentages, summed, stay within
`length / 20` of the exact per-level percentages, summed. -/
theorem sum_npRound1_close (f : CongestionLevel → ℚ)
    (ks : List CongestionLevel) :
    |(ks.map fun l => npRound1 (f l)).sum - (ks.map f).sum| ≤
      (ks.length : ℚ) / 20 := by
  induction ks with
  | nil => simp
  | cons a t ih =>
    simp only [List.map_cons, List.sum_cons, List.length_cons]
    have h1 := npRound1_abs_le (f a)
    calc |npRound1 (f a) + (t.map fun l => npRound1 (f l)).sum -
            (f a + (t.map f).sum)|
        = |(npRound1 (f a) - f a) +
            ((t.map fun l => npRound1 (f l)).sum - (t.map f).sum)| := by
          ring_nf
      _ ≤ |npRound1 (f a) - f a| +
            |(t.map fun l => npRound1 (f l)).sum - (t.map f).sum| :=
          abs_add _ _
      _ ≤ 1/20 + (t.length : ℚ) / 20 := by linarith
      _ = ((t.length : ℚ) + 1) / 20 := by ring
      _ = (((t.length : ℕ) + 1 : ℕ) : ℚ) / 20 := by push_cast; ring

/-- Pull the common `/ n * 100` factor out of a mapped sum. -/
theorem sum_map_div_mul (ks : List CongestionLevel)
    (g : CongestionLevel → ℕ) (n : ℚ) :
    (ks.map fun l => (g l : ℚ) / n * 100).sum =
      (((ks.map g).sum : ℕ) : ℚ) / n * 100 := by
  induction ks with
  | nil => simp
  | cons a t ih =>
    simp only [List.map_cons, List.sum_cons, ih]
    push_cast
    ring

/-- Exact percentages over the distinct levels sum to 100. -/
theorem exact_percentage_sum (levels : List CongestionLevel)
    (h : ¬ levels.isEmpty = true) :
    (levels.dedup.map fun l =>
      (levels.count l : ℚ) / (levels.length : ℚ) * 100).sum = 100 := by
  have hlen : levels.length ≠ 0 := by
    intro h0
    exact h (List.isEmpty_iff.2 (List.length_eq_zero.1 h0))
  rw [sum_map_div_mul levels.dedup (fun l => levels.count l)
    (levels.length : ℚ)]
  rw [List.sum_map_count_dedup_eq_length levels]
  have hq : (levels.length : ℚ) ≠ 0 := Nat.cast_ne_zero.2 hlen
  field_simp

/-- C4 (amended): when `total_segments > 0` the one-decimal rounded
percentages sum to 100 within ±0.2 (four levels, each half-even-rounded
with error at most 0.05); when the input is empty the percentage map is
empty, its sum is 0, and no division is attempted. The original ±0.1
bound fails (see the counterexample). -/
theorem percentageSum_bounds (levels : List CongestionLevel) :
    (¬ levels.isEmpty → |percentageSum levels - 100| ≤ 1/5) ∧
    (levels.isEmpty → percentageSum levels = 0) := by
  constructor
  · intro h
    unfold percentageSum congestionPercentages
    rw [if_neg h]
    have hclose := sum_npRound1_close
      (fun l => (levels.count l : ℚ) / (levels.length : ℚ) * 100)
      levels.dedup
    have hexact := exact_percentage_sum levels h
    have hcard : levels.dedup.length ≤ 4 := by
      have := (levels.nodup_dedup).length_le_card
      simpa using this
    have hcard' : (levels.dedup.length : ℚ) / 20 ≤ 1/5 := by
      have : (levels.dedup.length : ℚ) ≤ 4 := by exact_mod_cast hcard
      linarith
    have hmaps : ((levels.dedup.map fun l =>
        (l, npRound1 ((levels.count l : ℚ) / (levels.length : ℚ) * 100))).map
          Prod.snd) =
        levels.dedup.map fun l =>
          npRound1 ((levels.count l : ℚ) / (levels.length : ℚ) * 100) := by
      rw [List.map_map]; rfl
    rw [hmaps]
    rw [hexact] at hclose
    exact le_trans hclose hcard'
  · intro h
    unfold percentageSum congestionPercentages
    rw [if_pos h]
    rfl

/-- C4 counterexample: with 16 segments split 1/1/1/13 the exact
percentages are 6.25, 6.25, 6.25, 81.25; half-even rounding sends each
to 6.2, 6.2, 6.2, 81.2, so the snapshot's percentages sum to 99.8, which
misses 100 by 0.2 > 0.1. -/
theorem percentageSum_not_within_tenth :
    percentageSum sixteenLevels = 499/5 ∧
      ¬ |percentageSum sixteenLevels - 100| ≤ 1/10 := by
  have h1 : npRound1 ((25:ℚ)/4) = 31/5 := by
    unfold npRound1 roundHalfEven
    norm_num [Int.floor_eq_iff]
    rw [if_pos (show Even (62:ℤ) by decide)]
    norm_num
  have h2 : npRound1 ((325:ℚ)/4) = 406/5 := by
    unfold npRound1 roundHalfEven
    norm_num [Int.floor_eq_iff]
    rw [if_pos (show Even (812:ℤ) by decide)]
    norm_num
  have hd : sixteenLevels.dedup =
      [.low, .medium, .high, .unknown] := by decide
  have hv : percentageSum sixteenLevels = 499/5 := by
    unfold percentageSum congestionPercentages
    rw [if_neg (by decide), hd]
    simp only [List.map_cons, List.map_nil, List.sum_cons, List.sum_nil]
    simp +decide [sixteenLevels, List.count_cons, List.count_replicate,
      List.length_replicate]
    rw [show ((16:ℚ)⁻¹ * 100) = 25/4 by norm_num,
      show ((13:ℚ)/16*100) = 325/4 by norm_num]
    rw [h1, h2]
    norm_num
  have habs : |percentageSum sixteenLevels - 100| = 1/5 := by
    rw [hv, abs_sub_comm,
      abs_of_nonneg (by norm_num : (0:ℚ) ≤ 100 - 499/5)]
    norm_num
  exact ⟨hv, by rw [habs]; norm_num⟩

/-- Witness for `percentageSum_bounds` at concrete inputs: a singleton
`low` list (sum 100 exactly) and the empty list (sum 0). -/
theorem percentageSum_bounds_witness :
    |percentageSum [CongestionLevel.low] - 100| ≤ 1/5 ∧
      percentageSum ([] : List CongestionLevel) = 0 :=
  ⟨(percentageSum_bounds [CongestionLevel.low]).1 (by decide),
   (percentageSum_bounds ([] : List CongestionLevel)).2 (by decide)⟩

/-- C2: the `np.select` classification coincides with the spec's ordered
first-match rule — null/non-numeric mean speed gives `unknown`,
`mean_speed >= high_speed` gives `low`, `mean_speed >= medium_speed`
gives `medium`, anything else gives `high` — at every speed value and
every threshold pair, so every segment receives exactly one of the four
levels. -/
theorem calculateCongestionLevel_eq_spec_rule (th : Thresholds)
    (speed : Option ℚ) :
    calculateCongestionLevel th speed = specCongestionRule th speed := by
  cases speed with
  | none => rfl
  | some v =>
    simp only [calculateCongestionLevel, specCongestionRule, optGe, optLt]
    by_cases h1 : th.high_speed ≤ v
    · simp [h1]
    · by_cases h2 : th.medium_speed ≤ v
      · simp [h1, h2]
      · simp [h1, h2, lt_of_not_le h2]

/-! ### Aggregation theorems -/

theorem validRows_isSome (rows : List JoinedRow) :
    ∀ r ∈ validRows rows, r.roadId.isSome := by
  intro r hr
  exact (List.mem_filter.1 hr).2

theorem filterMap_roadId_validRows (rows : List JoinedRow) :
    (validRows rows).filterMap (fun r => r.roadId) =
      rows.filterMap fun r => r.roadId := by
  induction rows with
  | nil => rfl
  | cons r t ih =>
    cases hr : r.roadId with
    | none =>
      have hv : validRows (r :: t) = validRows t := by
        simp [validRows, List.filter_cons, hr]
      rw [hv, ih, List.filterMap_cons, hr]
    | some a =>
      have hv : validRows (r :: t) = r :: validRows t := by
        simp [validRows, List.filter_cons, hr]
      rw [hv, List.filterMap_cons, List.filterMap_cons, hr, ih]

theorem count_filterMap_roadId (k : String) :
    ∀ (l : List JoinedRow), (∀ r ∈ l, r.roadId.isSome) →
      (l.filterMap fun r => r.roadId).count k =
        (l.filter fun r => r.roadId = some k).length := by
  intro l
  induction l with
  | nil => intro _; rfl
  | cons r t ih =>
    intro h
    obtain ⟨a, ha⟩ :=
      Option.isSome_iff_exists.1 (h r (List.mem_cons_self r t))
    have ht := ih fun x hx => h x (List.mem_cons_of_mem r hx)
    by_cases hak : a = k
    · subst hak
      simp [List.filterMap_cons, ha, List.filter_cons, List.count_cons, ht]
    · simp [List.filterMap_cons, ha, List.filter_cons, List.count_cons,
        ht, hak, Option.some_inj]

theorem length_filterMap_roadId :
    ∀ (l : List JoinedRow), (∀ r ∈ l, r.roadId.isSome) →
      (l.filterMap fun r => r.roadId).length = l.length := by
  intro l
  induction l with
  | nil => intro _; rfl
  | cons r t ih =>
    intro h
    obtain ⟨a, ha⟩ :=
      Option.isSome_iff_exists.1 (h r (List.mem_cons_self r t))
    have ht := ih fun x hx => h x (List.mem_cons_of_mem r hx)
    simp [List.filterMap_cons, ha, ht]

/-- C5: with at least one of the three numeric columns present (the
`MatchedObservation` schema carries all three), every aggregated row's
`observation_count` is the size of its `road_id` group, the counts sum
to the number of input rows with non-null `road_id`, and there are at
most as many output rows as distinct matched road ids. -/
theorem aggregateByRoad_counts (rows : List JoinedRow) (cols : JoinedCols)
    (h : (cols.hasSpeed || cols.hasTravelTime || cols.hasLinkLength) = true) :
    (∀ r ∈ aggregateByRoad rows cols,
      r.observationCount =
        ((validRows rows).filter fun x => x.roadId = some r.roadId).length) ∧
    ((aggregateByRoad rows cols).map fun r => r.observationCount).sum =
      (validRows rows).length ∧
    (aggregateByRoad rows cols).length ≤
      ((rows.filterMap fun x => x.roadId).dedup).length := by
  by_cases hv : (validRows rows).isEmpty
  · have hnil : aggregateByRoad rows cols = [] := by
      unfold aggregateByRoad
      rw [if_pos hv]
    refine ⟨?_, ?_, ?_⟩
    · intro r hr
      rw [hnil] at hr
      exact absurd hr (List.not_mem_nil r)
    · rw [hnil]
      simp [List.isEmpty_iff.1 hv]
    · rw [hnil]
      exact Nat.zero_le _
  · have hagg : aggregateByRoad rows cols =
        (((validRows rows).filterMap fun r => r.roadId).dedup).map
          (fun k =>
            let g := (validRows rows).filter fun r => r.roadId = some k
            { roadId := k
              meanSpeed :=
                if cols.hasSpeed then
                  meanOpt (g.filterMap fun r => r.speed)
                else none
              meanTravelTime :=
                if cols.hasTravelTime then
                  meanOpt (g.filterMap fun r => r.travelTime)
                else none
              meanLinkLength :=
                if cols.hasLinkLength then
                  meanOpt (g.filterMap fun r => r.linkLength)
                else none
              meanDist :=
                if cols.hasDist then
                  meanOpt (g.filterMap fun r => r.distToRoad)
                else none
              roadName := (g.filterMap fun r => r.roadName).head?
              roadClass := (g.filterMap fun r => r.roadClass).head?
              observationCount := g.length : AggRow }) := by
      unfold aggregateByRoad
      rw [if_neg hv, if_neg (by simp [h])]
    refine ⟨?_, ?_, ?_⟩
    · intro r hr
      rw [hagg] at hr
      obtain ⟨k, _, hk⟩ := List.mem_map.1 hr
      subst hk
      rfl
    · rw [hagg, List.map_map]
      have hcomp : ((((validRows rows).filterMap fun r =>
          r.roadId).dedup).map fun k =>
            ((validRows rows).filter fun r => r.roadId = some k).length).sum =
          (validRows rows).length := by
        have hrw : (((validRows rows).filterMap fun r =>
            r.roadId).dedup).map
              (fun k =>
                ((validRows rows).filter fun r => r.roadId = some k).length) =
            (((validRows rows).filterMap fun r => r.roadId).dedup).map
              fun k => ((validRows rows).filterMap fun r => r.roadId).count k := by
          apply List.map_congr_left
          intro k _
          exact (count_filterMap_roadId k (validRows rows)
            (validRows_isSome rows)).symm
        rw [hrw, List.sum_map_count_dedup_eq_length]
        exact length_filterMap_roadId (validRows rows) (validRows_isSome rows)
      exact hcomp
    · rw [hagg, List.length_map, filterMap_roadId_validRows]

/-- C6: when the four numeric columns are present, every aggregated row
reduces each numeric field by the arithmetic mean of the non-null
values of its group, reporting null (never zero) for a field that is
entirely null within the group. -/
theorem aggregateByRoad_means (rows : List JoinedRow) (cols : JoinedCols)
    (hs : cols.hasSpeed = true) (ht : cols.hasTravelTime = true)
    (hl : cols.hasLinkLength = true) (hd : cols.hasDist = true) :
    ∀ r ∈ aggregateByRoad rows cols,
      meanSpec (((validRows rows).filter fun x =>
        x.roadId = some r.roadId).filterMap fun x => x.speed) r.meanSpeed ∧
      meanSpec (((validRows rows).filter fun x =>
        x.roadId = some r.roadId).filterMap fun x => x.travelTime)
        r.meanTravelTime ∧
      meanSpec (((validRows rows).filter fun x =>
        x.roadId = some r.roadId).filterMap fun x => x.linkLength)
        r.meanLinkLength ∧
      meanSpec (((validRows rows).filter fun x =>
        x.roadId = some r.roadId).filterMap fun x => x.distToRoad)
        r.meanDist := by
  intro r hr
  unfold aggregateByRoad at hr
  by_cases hv : (validRows rows).isEmpty
  · rw [if_pos hv] at hr
    exact absurd hr (List.not_mem_nil r)
  · rw [if_neg hv, if_neg (by simp [hs])] at hr
    obtain ⟨k, _, hk⟩ := List.mem_map.1 hr
    subst hk
    have hmean : ∀ vals : List ℚ, meanSpec vals (meanOpt vals) := by
      intro vals
      constructor
      · intro hnil
        simp [meanOpt, hnil]
      · intro hne
        rw [meanOpt, if_neg (by simpa using hne)]
    simp only [hs, ht, hl, hd, if_pos]
    exact ⟨hmean _, hmean _, hmean _, hmean _⟩

/-- C9: when none of the numeric columns 平均速度, 旅行時間, リンク長 is
present in the joined frame, `aggregate_by_road` returns an empty
result — for every input row list, including ones full of matched
road ids. -/
theorem aggregateByRoad_no_numeric_empty (rows : List JoinedRow)
    (hd : Bool) :
    aggregateByRoad rows ⟨false, false, false, hd⟩ = [] := by
  unfold aggregateByRoad
  by_cases hv : (validRows rows).isEmpty
  · rw [if_pos hv]
  · rw [if_neg hv]
    rfl

/-- Witness for `aggregateByRoad_counts`: on `wRows` (two matched rows
on road "a", one unmatched) the aggregated row counts 2 observations,
the counts sum to 2, and one output row is at most one distinct id. -/
theorem aggregateByRoad_counts_witness :
    wAgg.observationCount =
      ((validRows wRows).filter fun x => x.roadId = some wAgg.roadId).length ∧
    ((aggregateByRoad wRows wCols).map fun r => r.observationCount).sum =
      (validRows wRows).length ∧
    (aggregateByRoad wRows wCols).length ≤
      ((wRows.filterMap fun x => x.roadId).dedup).length := by
  have h := aggregateByRoad_counts wRows wCols rfl
  exact ⟨h.1 wAgg (by decide), h.2.1, h.2.2⟩

/-- Witness for `aggregateByRoad_means`: on `wRows`, whose numeric
cells are all null, the aggregated row reports null (not zero) in all
four mean fields. -/
theorem aggregateByRoad_means_witness :
    wAgg.meanSpeed = none ∧ wAgg.meanTravelTime = none ∧
      wAgg.meanLinkLength = none ∧ wAgg.meanDist = none := by
  have h := aggregateByRoad_means wRows wCols rfl rfl rfl rfl wAgg (by decide)
  exact ⟨h.1.1 (by decide), h.2.1.1 (by decide), h.2.2.1.1 (by decide),
    h.2.2.2.1 (by decide)⟩

/-! ### Spatial join theorems -/

theorem minQList_le (x : ℚ) :
    ∀ (l : List ℚ), x ∈ l → minQList l ≤ x := by
  intro l
  induction l with
  | nil => intro h; exact absurd h (List.not_mem_nil x)
  | cons a t ih =>
    intro hx
    cases t with
    | nil =>
      have : x = a := by simpa using hx
      subst this
      exact le_refl x
    | cons b r =>
      rcases List.mem_cons.1 hx with h | h
      · subst h
        exact min_le_left _ _
      · exact le_trans (min_le_right _ _) (ih h)

theorem minQList_mem :
    ∀ (l : List ℚ), l ≠ [] → minQList l ∈ l := by
  intro l
  induction l with
  | nil => intro h; exact absurd rfl h
  | cons a t ih =>
    intro _
    cases t with
    | nil => simp [minQList]
    | cons b r =>
      rcases min_choice a (minQList (b :: r)) with h | h
      · rw [show minQList (a :: b :: r) = min a (minQList (b :: r)) from rfl, h]
        exact List.mem_cons_self a _
      · rw [show minQList (a :: b :: r) = min a (minQList (b :: r)) from rfl, h]
        exact List.mem_cons_of_mem a (ih (by simp))

/-- C1: every record the spatial join emits carries a distance within
the cutoff whenever its road id is non-null, and when every road
segment lies strictly beyond the cutoff from the observation the
record is unmatched with a null id and a null distance. -/
theorem joinTrafficRoads_match_bound {O S : Type} (segId : S → String)
    (dist : O → S → ℚ) (d : ℚ) (traffic : List O) (roads : List S) :
    ∀ r ∈ joinTrafficRoads segId dist d traffic roads,
      (r.roadId.isSome → ∃ dv, r.distToRoad = some dv ∧ dv ≤ d) ∧
      ((∀ s ∈ roads, d < dist r.obs s) →
        r.roadId = none ∧ r.distToRoad = none) := by
  intro r hr
  unfold joinTrafficRoads at hr
  by_cases he : (traffic.isEmpty || roads.isEmpty) = true
  · rw [if_pos he] at hr
    exact absurd hr (List.not_mem_nil r)
  · rw [if_neg he] at hr
    obtain ⟨o, ho, hro⟩ := List.mem_flatMap.1 hr
    by_cases hm : minQList (roads.map (dist o)) ≤ d
    · rw [if_pos hm] at hro
      obtain ⟨s, hs, hrs⟩ := List.mem_map.1 hro
      subst hrs
      refine ⟨fun _ => ⟨minQList (roads.map (dist o)), rfl, hm⟩, fun hfar => ?_⟩
      exfalso
      have hne : roads ≠ [] := by
        intro h0
        subst h0
        simp at he
      have hmm : minQList (roads.map (dist o)) ∈ roads.map (dist o) :=
        minQList_mem _ (by simpa using hne)
      obtain ⟨s0, hs0, hval⟩ := List.mem_map.1 hmm
      have hlt := hfar s0 hs0
      rw [hval] at hlt
      exact absurd hm (not_le.2 hlt)
    · rw [if_neg hm] at hro
      have : r = ⟨o, none, none⟩ := List.mem_singleton.1 hro
      subst this
      exact ⟨fun hsome => by simp at hsome, fun _ => ⟨rfl, rfl⟩⟩

/-- Witness for `joinTrafficRoads_match_bound`: one observation at 0 on
a line, a road at 5 (within the 200 m cutoff: matched, distance 5) and
a road at 500 (beyond the cutoff: unmatched, both fields null). -/
theorem joinTrafficRoads_match_bound_witness :
    (∃ dv, (some (5:ℚ) : Option ℚ) = some dv ∧ dv ≤ 200) ∧
    ((none : Option String) = none ∧ (none : Option ℚ) = none) := by
  have habs : |(0:ℚ) - 5| = 5 := by norm_num
  have hjoin1 : joinTrafficRoads (fun _ : ℚ => "s") (fun o s => |o - s|)
      200 [(0:ℚ)] [(5:ℚ)] = [⟨0, some "s", some 5⟩] := by
    unfold joinTrafficRoads
    rw [if_neg (by decide)]
    simp [minQList, List.filter, habs]
    norm_num
  have hjoin2 : joinTrafficRoads (fun _ : ℚ => "s") (fun o s => |o - s|)
      200 [(0:ℚ)] [(500:ℚ)] = [⟨0, none, none⟩] := by
    have habs2 : |(0:ℚ) - 500| = 500 := by norm_num
    unfold joinTrafficRoads
    rw [if_neg (by decide)]
    simp [minQList, habs2]
    norm_num
  have h1 := (joinTrafficRoads_match_bound (fun _ : ℚ => "s")
    (fun o s => |o - s|) 200 [(0:ℚ)] [(5:ℚ)]
    ⟨0, some "s", some 5⟩ (by rw [hjoin1]; exact List.mem_singleton.2 rfl)).1
    rfl
  have h2 := (joinTrafficRoads_match_bound (fun _ : ℚ => "s")
    (fun o s => |o - s|) 200 [(0:ℚ)] [(500:ℚ)]
    ⟨0, none, none⟩ (by rw [hjoin2]; exact List.mem_singleton.2 rfl)).2
    (by
      intro s hs
      have : s = 500 := by simpa using hs
      subst this
      norm_num)
  exact ⟨h1, h2⟩

/-! ### Synthetic data and fetch theorems -/

theorem lcgState_lt (seed : ℕ) : ∀ k, lcgState seed k < 4294967296 := by
  intro k
  cases k with
  | zero => exact Nat.mod_lt _ (by norm_num)
  | succ m => exact Nat.mod_lt _ (by norm_num)

theorem unitDraw_nonneg (seed k : ℕ) : 0 ≤ unitDraw seed k := by
  unfold unitDraw
  positivity

theorem unitDraw_lt_one (seed k : ℕ) : unitDraw seed k < 1 := by
  unfold unitDraw
  rw [div_lt_one (by norm_num)]
  exact_mod_cast lcgState_lt seed (k + 1)

/-- C7: the synthetic generator is deterministic — two runs with the
same seed, point count, bounding box and wall-clock hour bucket
produce identical coordinates, speeds, travel times and link lengths
(the stamped time code, taken from the clock's minutes, is the only
run-dependent field, and the claim's listed fields do not depend on
it). -/
theorem generateMockData_deterministic (seed n : ℕ) (b : BBox)
    (hour tc1 tc2 : ℕ) :
    (generateMockData seed n b hour tc1).map
        (fun p => (p.lon, p.lat, p.speed, p.travelTime, p.linkLength)) =
      (generateMockData seed n b hour tc2).map
        (fun p => (p.lon, p.lat, p.speed, p.travelTime, p.linkLength)) := by
  simp only [generateMockData, List.map_map]
  rfl

theorem ratSqrt_pos (q : ℚ) (hq : 0 < q) : 0 < ratSqrt q := by
  unfold ratSqrt heronStep
  rw [if_neg (ne_of_gt hq)]
  positivity

/-- C8 counterexample: at the degenerate bounding box `degBox` every
sampled point sits exactly on the center, `distances.max()` is 0, the
source's `0/0` makes the base speed NaN, and scaling, noise and
`np.clip` propagate it — the generated observation's speed is null
(not a number in [5, 80]) and its travel time is null too. -/
theorem generateMockData_degenerate_nan :
    mockDegSample ∈ generateMockData 0 1 degBox 12 0 ∧
      mockDegSample.speed = none ∧ mockDegSample.travelTime = none := by
  have hmax0 : mockDistMax 0 1 degBox = 0 := by
    unfold mockDistMax mockDist mockLon mockLat centerLon centerLat degBox
    norm_num [List.range_succ, List.range_zero, ratSqrt]
  refine ⟨List.mem_singleton.2 rfl, ?_, ?_⟩
  · show mockSpeed 0 1 degBox 12 0 = none
    unfold mockSpeed mockBaseSpeed
    rw [if_pos hmax0]
  · show mockTravelTime 0 1 degBox 12 0 = none
    unfold mockTravelTime mockSpeed mockBaseSpeed
    rw [if_pos hmax0]

/-- C8 (amended): on every run whose sampled points do not all
coincide with the bbox center (`distances.max() ≠ 0` — any
non-degenerate run), each synthetic observation carries a non-null
speed clamped into [5, 80] km/h, and its travel time equals
`link_length / speed` in consistent units (metres over km/h, yielding
seconds) — derived from the assigned link length and the generated
speed, not independently sampled. On the degenerate input the source
yields NaN instead (see the counterexample). -/
theorem generateMockData_speed_time (seed n : ℕ) (b : BBox)
    (hour tc : ℕ) (hmax : mockDistMax seed n b ≠ 0) :
    ∀ p ∈ generateMockData seed n b hour tc,
      ∃ v, p.speed = some v ∧ 5 ≤ v ∧ v ≤ 80 ∧
        p.travelTime = some (p.linkLength / 1000 / (v / 3600)) := by
  intro p hp
  obtain ⟨i, _, hpi⟩ := List.mem_map.1 hp
  subst hpi
  refine ⟨min (max ((50 - mockDist seed n b i / mockDistMax seed n b * 30) *
      speedFactor hour + gaussDraw seed n i) 5) 80, ?_, ?_, ?_, ?_⟩
  · show mockSpeed seed n b hour i = _
    unfold mockSpeed mockBaseSpeed
    rw [if_neg hmax]
  · exact le_min (le_max_right _ _) (by norm_num)
  · exact min_le_right _ _
  · show mockTravelTime seed n b hour i = _
    unfold mockTravelTime mockSpeed mockBaseSpeed
    rw [if_neg hmax]

theorem mockSample_distMax_pos : 0 < mockDistMax 0 1 mockSampleBox := by
  have hu0 : unitDraw 0 0 = 1013904223 / 4294967296 := by
    norm_num [unitDraw, lcgState, lcgNext]
  have hu1 : unitDraw 0 1 = 1196435762 / 4294967296 := by
    norm_num [unitDraw, lcgState, lcgNext]
  have ht : 0 < (mockLon 0 1 mockSampleBox 0 - centerLon mockSampleBox) ^ 2 +
      (mockLat 0 1 mockSampleBox 0 - centerLat mockSampleBox) ^ 2 := by
    unfold mockLon mockLat centerLon centerLat mockSampleBox
    norm_num [hu0, hu1]
  have hd : 0 < mockDist 0 1 mockSampleBox 0 := by
    unfold mockDist
    exact ratSqrt_pos _ ht
  unfold mockDistMax
  rw [show List.range 1 = [0] from rfl]
  simp only [List.map_cons, List.map_nil, List.foldl_cons, List.foldl_nil]
  exact lt_of_lt_of_le hd (le_max_right 0 _)

/-- Witness for `generateMockData_speed_time` at the concrete sample
point, with the non-degeneracy hypothesis discharged by computing the
first sampled distance. -/
theorem generateMockData_speed_time_witness :
    ∃ v, mockSample.speed = some v ∧ 5 ≤ v ∧ v ≤ 80 ∧
      mockSample.travelTime =
        some (mockSample.linkLength / 1000 / (v / 3600)) :=
  generateMockData_speed_time 0 1 mockSampleBox 12 0
    (ne_of_gt mockSample_distMax_pos) mockSample
    (List.mem_singleton.2 rfl)

/-- C10: every synthetic observation lies inside the given bounding
box — longitude between `minLon` and `maxLon`, latitude between
`minLat` and `maxLat` — whenever the box is well-formed. -/
theorem generateMockData_in_bbox (seed n : ℕ) (b : BBox) (hour tc : ℕ)
    (hlon : b.minLon ≤ b.maxLon) (hlat : b.minLat ≤ b.maxLat) :
    ∀ p ∈ generateMockData seed n b hour tc,
      b.minLon ≤ p.lon ∧ p.lon ≤ b.maxLon ∧
        b.minLat ≤ p.lat ∧ p.lat ≤ b.maxLat := by
  intro p hp
  obtain ⟨i, _, hpi⟩ := List.mem_map.1 hp
  subst hpi
  have hbound : ∀ (lo hi : ℚ), lo ≤ hi → ∀ k,
      lo ≤ lo + unitDraw seed k * (hi - lo) ∧
        lo + unitDraw seed k * (hi - lo) ≤ hi := by
    intro lo hi hle k
    have h0 := unitDraw_nonneg seed k
    have h1 := (unitDraw_lt_one seed k).le
    have hw : (0:ℚ) ≤ hi - lo := by linarith
    constructor
    · nlinarith
    · nlinarith
  exact ⟨(hbound _ _ hlon i).1, (hbound _ _ hlon i).2,
    (hbound _ _ hlat (n + i)).1, (hbound _ _ hlat (n + i)).2⟩

/-- Witness for `generateMockData_in_bbox` at the concrete sample
point in the unit box. -/
theorem generateMockData_in_bbox_witness :
    mockSampleBox.minLon ≤ mockSample.lon ∧
      mockSample.lon ≤ mockSampleBox.maxLon ∧
      mockSampleBox.minLat ≤ mockSample.lat ∧
      mockSample.lat ≤ mockSampleBox.maxLat :=
  generateMockData_in_bbox 0 1 mockSampleBox 12 0
    (by norm_num [mockSampleBox]) (by norm_num [mockSampleBox])
    mockSample (List.mem_singleton.2 rfl)

/-- C3 counterexample: under the shipped default `USE_MOCK_DATA =
True`, fetching against a reachable live feed that parses to one
fully valid observation returns the synthetic rows — the very same
value as when the feed is unreachable — so synthetic data is not used
only as an empty-or-unreachable fallback, and the bare returned rows
give the caller nothing to distinguish the two sources. -/
theorem fetchTrafficData_default_ignores_live :
    fetchTrafficData USE_MOCK_DATA BBOX_5KM 12 202510121200
        (.success [liveObs]) =
      fetchTrafficData USE_MOCK_DATA BBOX_5KM 12 202510121200
        .unreachable ∧
    fetchTrafficData USE_MOCK_DATA BBOX_5KM 12 202510121200
        (.success [liveObs]) =
      (generateMockDataCode BBOX_5KM 12 202510121200).map (·.toRawObs) ∧
    validateTrafficData [liveObs] = [liveObs] ∧
    [liveObs] ≠ ([] : List RawObs) := by
  refine ⟨rfl, rfl, ?_, by simp⟩
  unfold validateTrafficData liveObs
  simp only [List.filter_cons, List.filter_nil]
  norm_num

/-- C3 (amended): the fetch is total — every feed outcome yields a
bare row list carrying no source indicator. Synthetic rows are
returned whenever `use_mock` is set (the shipped default), and with
`use_mock` off exactly when the feed is unreachable or parses empty;
a nonempty parse is cleaned by `validate_traffic_data` and returned.
Informing the caller of the source happens only through log
messages. -/
theorem fetchTrafficData_source_selection (b : BBox) (hour tc : ℕ) :
    (∀ live, fetchTrafficData true b hour tc live =
      (generateMockDataCode b hour tc).map (·.toRawObs)) ∧
    fetchTrafficData false b hour tc .unreachable =
      (generateMockDataCode b hour tc).map (·.toRawObs) ∧
    fetchTrafficData false b hour tc (.success []) =
      (generateMockDataCode b hour tc).map (·.toRawObs) ∧
    (∀ rows, rows ≠ [] →
      fetchTrafficData false b hour tc (.success rows) =
        validateTrafficData rows) := by
  refine ⟨fun live => by cases live <;> rfl, rfl, rfl, fun rows hne => ?_⟩
  unfold fetchTrafficData
  rw [if_neg (by simp)]
  simp only []
  rw [if_neg (by simpa using hne)]

/-- Witness for `fetchTrafficData_source_selection` at a concrete
nonempty live parse. -/
theorem fetchTrafficData_source_selection_witness :
    fetchTrafficData true BBOX_5KM 12 0 (.success [liveObs]) =
      (generateMockDataCode BBOX_5KM 12 0).map (·.toRawObs) ∧
    fetchTrafficData false BBOX_5KM 12 0 (.success [liveObs]) =
      validateTrafficData [liveObs] :=
  ⟨(fetchTrafficData_source_selection BBOX_5KM 12 0).1 (.success [liveObs]),
   (fetchTrafficData_source_selection BBOX_5KM 12 0).2.2.2 [liveObs]
     (by simp)⟩
